import Mathlib

/-!
Shallow embedding of the voice-box MCP server playback pipeline (src/index.ts).

JavaScript strings held in the decoder diagnostic buffer are modelled as
lists of characters, so that length, concatenation and slicing match the
JavaScript operations on the ASCII data involved.  The event-driven promise
executor of playTextToSpeech is modelled as a state machine: each callback
registered in the executor becomes one case of a step function, and a
playback run is a left fold of that step function over the list of callback
events in their arrival order.  The source file contains two variants of the
server separated by a document marker: the primary voice-box variant
(lines 1-315) is embedded in namespace VoiceBox, and the second ava-mcp
variant (lines 316-540) in namespace AvaMcp.
-/

namespace VoiceBox

/-- OpenAI TTS text length limit (src/index.ts line 33). -/
def MAX_TEXT_LENGTH : Nat := 4096

/-- Request timeout in milliseconds, 5 minutes (src/index.ts line 36). -/
def REQUEST_TIMEOUT : Nat := 300000

/-- Maximum error message buffer size, 10 KB (src/index.ts line 39). -/
def MAX_ERROR_BUFFER_SIZE : Nat := 10240

/-- Valid voice options (src/index.ts line 29). -/
def VALID_VOICES : List String :=
  [("alloy"), ("echo"), ("fable"), ("onyx"), ("nova"), ("shimmer")]

/-- Valid model options (src/index.ts line 30). -/
def VALID_MODELS : List String := [("tts-1"), ("tts-1-hd")]

/-- The truncation marker appended when the stderr buffer overflows
(src/index.ts line 113). -/
def truncationMarker : List Char := ("\n...[error output truncated]").data

/-- The stderr data handler of the ffmpeg process (src/index.ts lines 106-115):
if the whole chunk fits under the cap it is appended; otherwise, if the buffer
is still under the cap, the fitting slice of the chunk is appended followed by
the truncation marker; otherwise the chunk is dropped. -/
def appendStderr (buf chunk : List Char) : List Char :=
  if buf.length + chunk.length ≤ MAX_ERROR_BUFFER_SIZE then
    buf ++ chunk
  else if buf.length < MAX_ERROR_BUFFER_SIZE then
    buf ++ (chunk.take (MAX_ERROR_BUFFER_SIZE - buf.length) ++ truncationMarker)
  else
    buf

/-- The accumulated ffmpegError string after a sequence of stderr data events,
starting from the empty buffer (src/index.ts line 102). -/
def stderrFold (chunks : List (List Char)) : List Char :=
  chunks.foldl appendStderr []

/-- One callback firing inside the playTextToSpeech promise executor
(src/index.ts lines 71-197): a decoder stderr data event, a decoder process
error, the decoder close event with its exit code (null when killed by a
signal), a sink error, the sink close event, or an error reaching the catch
block of the executor body (a provider failure, a missing stream body, or a
setup failure). -/
inductive Event where
  | stderrData (chunk : List Char)
  | ffmpegErrorEvt (msg : String)
  | ffmpegClose (code : Option Int)
  | speakerErrorEvt (msg : String)
  | speakerClose
  | bodyError (msg : String)
deriving DecidableEq

/-- The errors playTextToSpeech can reject with, each carrying the data used
to build its message string. -/
inductive PlayError where
  | ffmpegProcess (msg : String)
  | ffmpegExit (code : Option Int) (diag : List Char)
  | speaker (msg : String)
  | thrown (msg : String)
  | timedOut (ms : Nat)
deriving DecidableEq

/-- JavaScript template rendering of the decoder exit code: null prints as
the word null. -/
def exitCodeText : Option Int → String
  | some n => toString n
  | none => ("null")

/-- The message string of each rejection, as built at the corresponding
reject call site in src/index.ts (lines 120, 127, 135, 57, and the rethrown
error of the catch block). -/
def PlayError.message : PlayError → String
  | PlayError.ffmpegProcess m => ("ffmpeg process error: ") ++ m
  | PlayError.ffmpegExit code diag =>
      ("ffmpeg exited with code ") ++ exitCodeText code ++ (": ") ++ String.mk diag
  | PlayError.speaker m => ("Speaker error: ") ++ m
  | PlayError.thrown m => m
  | PlayError.timedOut ms => ("Request timed out after ") ++ toString ms ++ ("ms")

/-- The mutable state of one playTextToSpeech invocation: the settled flag
(line 72), the value the promise was settled with (none while pending), the
accumulated ffmpegError buffer (line 102), and whether ffmpeg.kill (line 187)
and speaker.end (line 190) have been called.  ffmpeg and speaker themselves
are modelled as already created, since every event below is a callback on
them. -/
structure SessionState where
  settled : Bool
  result : Option (Except PlayError Unit)
  ffmpegError : List Char
  ffmpegKilled : Bool
  speakerEnded : Bool

/-- State at the start of the promise executor (src/index.ts lines 72-74). -/
def initialState : SessionState :=
  { settled := false, result := none, ffmpegError := [],
    ffmpegKilled := false, speakerEnded := false }

/-- One callback firing, translated handler by handler from
src/index.ts lines 106-197.  The ffmpeg close handler rejects only on a
non-zero code and never resolves (lines 124-130); the speaker close handler
resolves (lines 140-146); the catch block kills ffmpeg, ends the speaker and
then rejects if not yet settled (lines 182-197). -/
def step (s : SessionState) (e : Event) : SessionState :=
  match e with
  | Event.stderrData chunk =>
      { s with ffmpegError := appendStderr s.ffmpegError chunk }
  | Event.ffmpegErrorEvt msg =>
      if s.settled then s
      else { s with settled := true,
                    result := some (Except.error (PlayError.ffmpegProcess msg)) }
  | Event.ffmpegClose code =>
      if code ≠ some 0 ∧ s.settled = false then
        { s with settled := true,
                 result := some (Except.error (PlayError.ffmpegExit code s.ffmpegError)) }
      else s
  | Event.speakerErrorEvt msg =>
      if s.settled then s
      else { s with settled := true,
                    result := some (Except.error (PlayError.speaker msg)) }
  | Event.speakerClose =>
      if s.settled then s
      else { s with settled := true, result := some (Except.ok ()) }
  | Event.bodyError msg =>
      let s1 := { s with ffmpegKilled := true, speakerEnded := true }
      if s1.settled then s1
      else { s1 with settled := true,
                     result := some (Except.error (PlayError.thrown msg)) }

/-- The session state of one playTextToSpeech invocation after the given
callback events have fired in order (src/index.ts lines 65-199). -/
def playTextToSpeech (tr : List Event) : SessionState :=
  tr.foldl step initialState

/-- Default parameter values in the signature of playTextToSpeech
(src/index.ts lines 66-68): voice defaults to alloy, model to tts-1. -/
def playTextToSpeechDefaults : String × String := (("alloy"), ("tts-1"))

/-- withTimeout (src/index.ts lines 53-60) races the wrapped promise against
a timer that only rejects with a timeout error: the raced outcome at the
deadline is the promise value when it settled in time, and otherwise the
timeout rejection.  The timer performs no other action: it does not touch
the session state. -/
def withTimeout (resultAtDeadline : Option (Except PlayError Unit))
    (timeoutMs : Nat) : Except PlayError Unit :=
  match resultAtDeadline with
  | some r => r
  | none => Except.error (PlayError.timedOut timeoutMs)

/-- Outcome of the awaited openai.audio.speech.create call (src/index.ts
lines 150-161): the call can throw, or return a response whose body is
either absent or a stream of byte chunks. -/
inductive ProviderResult where
  | failed (msg : String)
  | response (body : Option (List (List Char)))
deriving DecidableEq

/-- The error message the executor body raises for a failing provider
interaction: the thrown error itself, or the missing-stream message of
src/index.ts line 160. -/
def providerFailureMsg : ProviderResult → String
  | ProviderResult.failed m => m
  | ProviderResult.response none => ("No audio stream received from OpenAI")
  | ProviderResult.response (some _) => ("")

/-- The event the main executor flow produces from the provider interaction:
a throw reaching the catch block for a failed call or a missing body, and no
settlement action when a stream is returned (the chunks are forwarded to
ffmpeg stdin, which is then half-closed). -/
def providerEvent : ProviderResult → Option Event
  | ProviderResult.failed m => some (Event.bodyError m)
  | ProviderResult.response none =>
      some (Event.bodyError ("No audio stream received from OpenAI"))
  | ProviderResult.response (some _) => none

/-- What the text_to_speech tool-call handler does with its arguments:
either it raises a validation failure before the pipeline is entered, or it
invokes playTextToSpeech with the given text, voice and model. -/
inductive HandlerAction where
  | validationFailure (msg : String)
  | runPipeline (text voice model : String)
deriving DecidableEq

/-- The validation part of the tool-call handler (src/index.ts lines
249-276).  The voice and model arguments default to onyx and tts-1 when
absent (line 251).  The voice and model guards first test JavaScript
truthiness, so an empty string skips the membership test (lines 267, 271). -/
def routeTextToSpeech (text : String) (voiceArg modelArg : Option String) :
    HandlerAction :=
  if text = ("") then
    HandlerAction.validationFailure ("Text parameter is required and must be a string")
  else if MAX_TEXT_LENGTH < text.length then
    HandlerAction.validationFailure
      (("Text too long. Maximum length is ") ++ toString MAX_TEXT_LENGTH
        ++ (" characters (received ") ++ toString text.length ++ (")"))
  else if voiceArg.getD ("onyx") ≠ ("") ∧ voiceArg.getD ("onyx") ∉ VALID_VOICES then
    HandlerAction.validationFailure
      (("Invalid voice. Must be one of: ") ++ String.intercalate (", ") VALID_VOICES)
  else if modelArg.getD ("tts-1") ≠ ("") ∧ modelArg.getD ("tts-1") ∉ VALID_MODELS then
    HandlerAction.validationFailure
      (("Invalid model. Must be one of: ") ++ String.intercalate (", ") VALID_MODELS)
  else
    HandlerAction.runPipeline text (voiceArg.getD ("onyx")) (modelArg.getD ("tts-1"))

/-- The content payload the tool-call handler returns (src/index.ts lines
278-297). -/
structure ToolResult where
  text : String
  isError : Bool
deriving DecidableEq

/-- Rendering of the pipeline outcome by the tool-call handler: the success
message of line 282 naming the voice and model used, or the error message of
line 292. -/
def renderOutcome (voice model : String) : Except PlayError Unit → ToolResult
  | Except.ok _ =>
      { text := ("Successfully played text to speech with voice \"") ++ voice
          ++ ("\" using model \"") ++ model ++ ("\""),
        isError := false }
  | Except.error e =>
      { text := ("Error playing text to speech: ") ++ e.message, isError := true }

/-- The whole text_to_speech tool-call handler (src/index.ts lines 249-297):
validation failures are caught by the same catch and rendered with the error
prefix; otherwise the playTextToSpeech call is raced against the timeout and
the raced outcome rendered.  sessionResult is the session's settlement value
at the deadline, none when still pending. -/
def handleTextToSpeech (text : String) (voiceArg modelArg : Option String)
    (sessionResult : Option (Except PlayError Unit)) : ToolResult :=
  match routeTextToSpeech text voiceArg modelArg with
  | HandlerAction.validationFailure msg =>
      { text := ("Error playing text to speech: ") ++ msg, isError := true }
  | HandlerAction.runPipeline _ voice model =>
      renderOutcome voice model (withTimeout sessionResult REQUEST_TIMEOUT)

/-- A stderr chunk filling the diagnostic buffer exactly to its cap. -/
def capChunk : List Char := List.replicate MAX_ERROR_BUFFER_SIZE ('a')

end VoiceBox

namespace AvaMcp

/-- The state of one playTextToSpeech invocation in the second (ava-mcp)
variant (src/index.ts lines 354-430): it has no settled flag and no cleanup
flags, only the promise value (first resolve or reject call wins) and the
unbounded ffmpegError buffer (line 383). -/
structure Session2State where
  result : Option (Except VoiceBox.PlayError Unit)
  ffmpegError : List Char

/-- Promise settlement: a resolve or reject call is a no-op once the promise
already holds a value. -/
def settleOnce (s : Session2State) (r : Except VoiceBox.PlayError Unit) :
    Session2State :=
  if s.result.isNone then { s with result := some r } else s

/-- One callback firing in the second variant, translated handler by handler
from src/index.ts lines 383-428: stderr data is appended without a cap
(line 385); the close handler rejects on a non-zero code and resolves
otherwise (lines 392-398); there is no speaker close handler; the catch
block only rejects (line 427). -/
def step (s : Session2State) (e : VoiceBox.Event) : Session2State :=
  match e with
  | VoiceBox.Event.stderrData chunk =>
      { s with ffmpegError := s.ffmpegError ++ chunk }
  | VoiceBox.Event.ffmpegErrorEvt msg =>
      settleOnce s (Except.error (VoiceBox.PlayError.ffmpegProcess msg))
  | VoiceBox.Event.ffmpegClose code =>
      if code ≠ some 0 then
        settleOnce s (Except.error (VoiceBox.PlayError.ffmpegExit code s.ffmpegError))
      else
        settleOnce s (Except.ok ())
  | VoiceBox.Event.speakerErrorEvt msg =>
      settleOnce s (Except.error (VoiceBox.PlayError.speaker msg))
  | VoiceBox.Event.speakerClose => s
  | VoiceBox.Event.bodyError msg =>
      settleOnce s (Except.error (VoiceBox.PlayError.thrown msg))

/-- The second variant's session state after the given callback events. -/
def playTextToSpeech (tr : List VoiceBox.Event) : Session2State :=
  tr.foldl step { result := none, ffmpegError := [] }

end AvaMcp

open VoiceBox

/-- Once settled, every further callback leaves both the settled flag and the
promise value unchanged. -/
theorem vb_step_settled (s : SessionState) (e : Event) (h : s.settled = true) :
    (step s e).settled = true ∧ (step s e).result = s.result := by
  cases e <;> simp [step, h]

/-- Once settled, any further list of callbacks leaves the promise value
unchanged and the flag set. -/
theorem vb_foldl_settled (tr : List Event) :
    ∀ s : SessionState, s.settled = true →
      (tr.foldl step s).settled = true ∧ (tr.foldl step s).result = s.result := by
  induction tr with
  | nil => intro s h; exact ⟨h, rfl⟩
  | cons e tr ih =>
      intro s h
      have hs := vb_step_settled s e h
      have ht := ih (step s e) hs.1
      exact ⟨ht.1, ht.2.trans hs.2⟩

/-- The settled flag tracks whether the promise holds a value, across any
single callback. -/
theorem vb_step_inv (s : SessionState) (e : Event)
    (h : s.settled = s.result.isSome) :
    (step s e).settled = (step s e).result.isSome := by
  cases e <;> simp only [step] <;> try split
  all_goals simp_all

/-- The settled flag tracks whether the promise holds a value, across any
run. -/
theorem vb_settled_isSome (tr : List Event) :
    (playTextToSpeech tr).settled = (playTextToSpeech tr).result.isSome := by
  suffices h : ∀ s : SessionState, s.settled = s.result.isSome →
      (tr.foldl step s).settled = (tr.foldl step s).result.isSome from
    h initialState rfl
  induction tr with
  | nil => intro s h; exact h
  | cons e tr ih => intro s h; exact ih (step s e) (vb_step_inv s e h)

/-- Only the catch block touches the cleanup flags. -/
theorem vb_step_flags (s : SessionState) (e : Event)
    (h : ∀ m, e ≠ Event.bodyError m) :
    (step s e).ffmpegKilled = s.ffmpegKilled
    ∧ (step s e).speakerEnded = s.speakerEnded := by
  cases e with
  | stderrData chunk => exact ⟨rfl, rfl⟩
  | ffmpegErrorEvt msg => simp only [step]; split <;> exact ⟨rfl, rfl⟩
  | ffmpegClose code => simp only [step]; split <;> exact ⟨rfl, rfl⟩
  | speakerErrorEvt msg => simp only [step]; split <;> exact ⟨rfl, rfl⟩
  | speakerClose => simp only [step]; split <;> exact ⟨rfl, rfl⟩
  | bodyError msg => exact absurd rfl (h msg)

/-- A set cleanup flag can only have come from a catch-block event in the
trace. -/
theorem vb_flags_from_bodyError (tr : List Event) :
    ∀ s : SessionState,
      ((tr.foldl step s).ffmpegKilled = true ∨ (tr.foldl step s).speakerEnded = true) →
      (s.ffmpegKilled = true ∨ s.speakerEnded = true) ∨ ∃ m, Event.bodyError m ∈ tr := by
  induction tr with
  | nil => intro s h; exact Or.inl h
  | cons e tr ih =>
      intro s h
      rcases ih (step s e) h with h1 | h1
      · by_cases he : ∀ m, e ≠ Event.bodyError m
        · have := vb_step_flags s e he
          rw [this.1, this.2] at h1
          exact Or.inl h1
        · push_neg at he
          obtain ⟨m, hm⟩ := he
          exact Or.inr ⟨m, hm ▸ List.mem_cons_self _ _⟩
      · obtain ⟨m, hm⟩ := h1
        exact Or.inr ⟨m, List.mem_cons_of_mem _ hm⟩

/-- A catch-block event anywhere in the trace forces the session to be
settled at the end of the run. -/
theorem vb_bodyError_settles (tr : List Event) :
    ∀ (s : SessionState) (m : String), Event.bodyError m ∈ tr →
      (tr.foldl step s).settled = true := by
  induction tr with
  | nil => intro s m h; cases h
  | cons e tr ih =>
      intro s m h
      rcases List.mem_cons.1 h with h1 | h1
      · subst h1
        have hset : (step s (Event.bodyError m)).settled = true := by
          simp only [step]
          split <;> simp_all
        exact (vb_foldl_settled tr _ hset).1
      · exact ih (step s e) m h1

/-- The promise can only hold a success value after the speaker close
callback produced it. -/
theorem vb_step_ok_source (s : SessionState) (e : Event)
    (h : (step s e).result = some (Except.ok ())) :
    s.result = some (Except.ok ()) ∨ e = Event.speakerClose := by
  cases e <;> simp only [step] at h <;> try split at h
  all_goals simp_all

/-- A run ending in a success value contains the speaker close event, unless
it already started with a success value. -/
theorem vb_foldl_ok_source (tr : List Event) :
    ∀ s : SessionState, (tr.foldl step s).result = some (Except.ok ()) →
      s.result = some (Except.ok ()) ∨ Event.speakerClose ∈ tr := by
  induction tr with
  | nil => intro s h; exact Or.inl h
  | cons e tr ih =>
      intro s h
      rcases ih (step s e) h with h1 | h1
      · rcases vb_step_ok_source s e h1 with h2 | h2
        · exact Or.inl h2
        · exact Or.inr (h2 ▸ List.mem_cons_self _ _)
      · exact Or.inr (List.mem_cons_of_mem _ h1)

/-- One stderr data event keeps the accumulated diagnostics under the cap
plus the marker. -/
theorem vb_appendStderr_le (buf chunk : List Char)
    (h : buf.length ≤ MAX_ERROR_BUFFER_SIZE + truncationMarker.length) :
    (appendStderr buf chunk).length
      ≤ MAX_ERROR_BUFFER_SIZE + truncationMarker.length := by
  unfold appendStderr
  split
  · next h1 => simp only [List.length_append]; omega
  · split
    · next h1 h2 =>
        simp only [List.length_append, List.length_take]
        omega
    · exact h

/-- Any fold of stderr data events keeps the accumulated diagnostics under
the cap plus the marker. -/
theorem vb_stderr_foldl_le (chunks : List (List Char)) :
    ∀ buf : List Char,
      buf.length ≤ MAX_ERROR_BUFFER_SIZE + truncationMarker.length →
      (chunks.foldl appendStderr buf).length
        ≤ MAX_ERROR_BUFFER_SIZE + truncationMarker.length := by
  induction chunks with
  | nil => intro buf h; exact h
  | cons c cs ih =>
      intro buf h
      exact ih (appendStderr buf c) (vb_appendStderr_le buf c h)

/-- While everything fits under the cap, the stderr handler is plain
concatenation. -/
theorem vb_stderr_foldl_small (chunks : List (List Char)) :
    ∀ buf : List Char,
      buf.length + (chunks.map List.length).sum ≤ MAX_ERROR_BUFFER_SIZE →
      chunks.foldl appendStderr buf = buf ++ chunks.flatten := by
  induction chunks with
  | nil => intro buf h; simp
  | cons c cs ih =>
      intro buf h
      simp only [List.map_cons, List.sum_cons] at h
      have h1 : appendStderr buf c = buf ++ c := by
        unfold appendStderr
        rw [if_pos (by omega)]
      simp only [List.foldl_cons, h1]
      rw [ih (buf ++ c) (by rw [List.length_append]; omega)]
      simp [List.flatten]

/-- A run made only of stderr data events just folds the stderr handler over
the buffer and leaves every other component of the state alone. -/
theorem vb_run_stderrOnly (chunks : List (List Char)) :
    ∀ s : SessionState,
      (chunks.map Event.stderrData).foldl step s
        = { s with ffmpegError := chunks.foldl appendStderr s.ffmpegError } := by
  induction chunks with
  | nil => intro s; rfl
  | cons c cs ih =>
      intro s
      simp only [List.map_cons, List.foldl_cons, step]
      exact ih _

/-- C1: for every invocation of playTextToSpeech, the session settles at
most once: the settled flag tracks exactly whether an outcome value has been
reported, exactly one of success, failure or timeout is the raced outcome at
the deadline, and after the first settlement every later callback (decoder
exit, decoder error, sink error, sink close, catch) leaves the reported
outcome and the flag unchanged. -/
theorem playTextToSpeech_settles_exactly_once :
    ∀ tr rest : List Event,
      ((playTextToSpeech tr).settled = (playTextToSpeech tr).result.isSome)
      ∧ (withTimeout (playTextToSpeech tr).result REQUEST_TIMEOUT
          = match (playTextToSpeech tr).result with
            | some r => r
            | none => Except.error (PlayError.timedOut REQUEST_TIMEOUT))
      ∧ ((playTextToSpeech tr).settled = true →
          (playTextToSpeech (tr ++ rest)).result = (playTextToSpeech tr).result
          ∧ (playTextToSpeech (tr ++ rest)).settled = true) := by
  intro tr rest
  refine ⟨vb_settled_isSome tr, rfl, ?_⟩
  intro h
  have := vb_foldl_settled rest (playTextToSpeech tr) h
  rw [playTextToSpeech, List.foldl_append]
  exact ⟨this.2, this.1⟩

/-- Witness for C1: after the sink reported completion, a later decoder
error exit does not change the already-reported success. -/
theorem playTextToSpeech_settles_exactly_once_witness :
    (playTextToSpeech ([Event.speakerClose] ++ [Event.ffmpegClose (some 1)])).result
      = (playTextToSpeech [Event.speakerClose]).result :=
  ((playTextToSpeech_settles_exactly_once [Event.speakerClose]
      [Event.ffmpegClose (some 1)]).2.2 (by rfl)).1

/-- A session still pending has never run the catch-block cleanup: neither
ffmpeg.kill nor speaker.end has been called. -/
theorem vb_pending_no_cleanup (tr : List Event)
    (h : (playTextToSpeech tr).result = none) :
    (playTextToSpeech tr).ffmpegKilled = false
    ∧ (playTextToSpeech tr).speakerEnded = false := by
  by_contra hc
  have hflag : (playTextToSpeech tr).ffmpegKilled = true
      ∨ (playTextToSpeech tr).speakerEnded = true := by
    rcases Bool.eq_false_or_eq_true (playTextToSpeech tr).ffmpegKilled with h1 | h1
    · exact Or.inl h1
    · rcases Bool.eq_false_or_eq_true (playTextToSpeech tr).speakerEnded with h2 | h2
      · exact Or.inr h2
      · exact absurd ⟨h1, h2⟩ hc
  rcases vb_flags_from_bodyError tr initialState hflag with h1 | h1
  · simp [initialState] at h1
  · obtain ⟨m, hm⟩ := h1
    have hset := vb_bodyError_settles tr initialState m hm
    have := vb_settled_isSome tr
    rw [playTextToSpeech] at *
    rw [hset] at this
    rw [h] at this
    simp at this

/-- C2 counterexample: a playback whose pipeline is still running at the
deadline (here: ffmpeg produced a stderr chunk and nothing has settled) is
reported as a timeout failure, yet the decoder has not been killed and the
sink has not been closed, contradicting the claim that on timeout both are
forcibly terminated. -/
theorem timeout_leaves_pipeline_running :
    withTimeout (playTextToSpeech [Event.stderrData [('x')]]).result REQUEST_TIMEOUT
      = Except.error (PlayError.timedOut REQUEST_TIMEOUT)
    ∧ ¬ ((playTextToSpeech [Event.stderrData [('x')]]).ffmpegKilled = true
         ∧ (playTextToSpeech [Event.stderrData [('x')]]).speakerEnded = true) := by
  refine ⟨rfl, ?_⟩
  intro h
  exact absurd h.1 (by decide)

/-- C2 (amended): for every playback whose pipeline is still unsettled when
the configured timeout (default 300000 ms) elapses, the raced operation
settles as a timeout failure with the timeout message, but the timeout
mechanism performs no cleanup: the decoder process has not been killed and
the audio sink has not been closed, both keep running. -/
theorem timeout_reports_without_cleanup :
    ∀ tr : List Event,
      (playTextToSpeech tr).result = none →
      withTimeout (playTextToSpeech tr).result REQUEST_TIMEOUT
          = Except.error (PlayError.timedOut REQUEST_TIMEOUT)
      ∧ (PlayError.timedOut REQUEST_TIMEOUT).message
          = ("Request timed out after 300000ms")
      ∧ (playTextToSpeech tr).ffmpegKilled = false
      ∧ (playTextToSpeech tr).speakerEnded = false := by
  intro tr h
  have hf := vb_pending_no_cleanup tr h
  rw [h]
  exact ⟨rfl, rfl, hf.1, hf.2⟩

/-- Witness for C2 (amended): a pipeline that only emitted decoder stderr is
reported as a timeout at the deadline. -/
theorem timeout_reports_without_cleanup_witness :
    withTimeout (playTextToSpeech [Event.stderrData [('x')]]).result REQUEST_TIMEOUT
      = Except.error (PlayError.timedOut REQUEST_TIMEOUT) :=
  (timeout_reports_without_cleanup [Event.stderrData [('x')]] (by rfl)).1

/-- C3 counterexample: when the sink reports a device error, the session
settles as that failure, but at that point neither ffmpeg.kill nor
speaker.end has been called — the decoder process is left running,
contradicting the claim that every error path kills the decoder and closes
the sink by the time the failure is reported. -/
theorem sink_error_settles_without_killing_decoder :
    (playTextToSpeech [Event.speakerErrorEvt ("device unavailable")]).result
      = some (Except.error (PlayError.speaker ("device unavailable")))
    ∧ (playTextToSpeech [Event.speakerErrorEvt ("device unavailable")]).ffmpegKilled
      = false
    ∧ (playTextToSpeech [Event.speakerErrorEvt ("device unavailable")]).speakerEnded
      = false :=
  ⟨rfl, rfl, rfl⟩

/-- C3 (amended): resource cleanup happens on, and only on, the catch path
of the executor body: an error reaching the catch block (a provider failure
or a setup failure) calls ffmpeg.kill and speaker.end and settles the
failure once; but failures settled from the decoder-error, decoder-exit and
sink-error callbacks reject without killing the decoder or closing the sink,
and a set cleanup flag always traces back to a catch-block event. -/
theorem cleanup_only_on_catch_path :
    ∀ (tr : List Event) (msg : String),
      ((step (playTextToSpeech tr) (Event.bodyError msg)).ffmpegKilled = true
       ∧ (step (playTextToSpeech tr) (Event.bodyError msg)).speakerEnded = true
       ∧ (step (playTextToSpeech tr) (Event.bodyError msg)).settled = true
       ∧ ((playTextToSpeech tr).settled = false →
           (step (playTextToSpeech tr) (Event.bodyError msg)).result
             = some (Except.error (PlayError.thrown msg))))
      ∧ (∀ e : Event, (∀ m, e ≠ Event.bodyError m) →
          (step (playTextToSpeech tr) e).ffmpegKilled
            = (playTextToSpeech tr).ffmpegKilled
          ∧ (step (playTextToSpeech tr) e).speakerEnded
            = (playTextToSpeech tr).speakerEnded)
      ∧ (((playTextToSpeech tr).ffmpegKilled = true
            ∨ (playTextToSpeech tr).speakerEnded = true)
          → ∃ m, Event.bodyError m ∈ tr) := by
  intro tr msg
  refine ⟨?_, ?_, ?_⟩
  · constructor
    · simp only [step]; split <;> rfl
    · constructor
      · simp only [step]; split <;> rfl
      · constructor
        · simp only [step]
          split
          · next h => simpa using h
          · rfl
        · intro h
          simp only [step]
          split
          · next h1 => simp [h] at h1
          · rfl
  · intro e he
    exact vb_step_flags (playTextToSpeech tr) e he
  · intro h
    rcases vb_flags_from_bodyError tr initialState h with h1 | h1
    · simp [initialState] at h1
    · exact h1

/-- Witness for C3 (amended): a provider failure reaching the catch block on
a fresh session settles it as that failure with both cleanup calls made. -/
theorem cleanup_only_on_catch_path_witness :
    (step (playTextToSpeech []) (Event.bodyError ("boom"))).result
      = some (Except.error (PlayError.thrown ("boom"))) :=
  ((cleanup_only_on_catch_path [] ("boom")).1.2.2.2) (by rfl)

/-- C4 counterexample: in the second playTextToSpeech variant (src/index.ts
lines 392-398) the decoder exiting with code 0 by itself settles the session
as a success, with no sink close event in the trace, contradicting the claim
that a zero decoder exit never settles success. -/
theorem variant2_decoder_exit_zero_resolves :
    (AvaMcp.playTextToSpeech [Event.ffmpegClose (some 0)]).result
      = some (Except.ok ())
    ∧ Event.speakerClose ∉ [Event.ffmpegClose (some 0)] := by
  exact ⟨rfl, by decide⟩

/-- C4 (amended): in the primary voice-box variant, playTextToSpeech
resolves successfully only when the sink's close event fired — a success
value in the promise implies the speaker close event is in the trace, and a
decoder exit with code 0 is always a no-op on the session state.  In the
second (ava-mcp) variant, however, the decoder exiting with code 0 resolves
the promise as a success by itself. -/
theorem success_requires_sink_close_in_primary :
    (∀ tr : List Event,
        (playTextToSpeech tr).result = some (Except.ok ()) →
        Event.speakerClose ∈ tr)
    ∧ (∀ tr : List Event,
        playTextToSpeech (tr ++ [Event.ffmpegClose (some 0)])
          = playTextToSpeech tr)
    ∧ (AvaMcp.playTextToSpeech [Event.ffmpegClose (some 0)]).result
        = some (Except.ok ()) := by
  refine ⟨?_, ?_, rfl⟩
  · intro tr h
    rcases vb_foldl_ok_source tr initialState h with h1 | h1
    · simp [initialState] at h1
    · exact h1
  · intro tr
    rw [playTextToSpeech, List.foldl_append]
    simp [step]
    rfl

/-- Witness for C4 (amended): a session that resolved has the sink close
event in its trace. -/
theorem success_requires_sink_close_in_primary_witness :
    Event.speakerClose ∈ [Event.speakerClose] :=
  success_requires_sink_close_in_primary.1 [Event.speakerClose] (by rfl)

/-- C5 counterexample: a tool call whose voice argument is the empty string
passes validation and enters the pipeline, although the empty string is not
in the valid voice enumeration — the voice guard tests JavaScript truthiness
first, so an empty string bypasses the membership check, contradicting the
claim that every out-of-enumeration voice yields a synchronous validation
error. -/
theorem empty_voice_bypasses_validation :
    routeTextToSpeech ("hi") (some ("")) none
      = HandlerAction.runPipeline ("hi") ("") ("tts-1")
    ∧ (("" : String) ∈ VALID_VOICES) = False := by
  refine ⟨by decide, by simp [VALID_VOICES]⟩

/-- C5 (amended): a tool call whose text is empty or longer than 4096
characters, or whose explicitly provided voice or model is a non-empty
string outside the fixed valid enumeration, is answered with a synchronous
validation failure and the pipeline (and hence the remote TTS provider) is
never entered; an empty-string voice or model, however, bypasses the
enumeration check because the guard tests truthiness first. -/
theorem validation_rejects_invalid_inputs :
    ∀ (text : String) (voiceArg modelArg : Option String),
      (text = ("")
        ∨ MAX_TEXT_LENGTH < text.length
        ∨ (∃ v, voiceArg = some v ∧ v ≠ ("") ∧ v ∉ VALID_VOICES)
        ∨ (∃ m, modelArg = some m ∧ m ≠ ("") ∧ m ∉ VALID_MODELS)) →
      ∃ msg, routeTextToSpeech text voiceArg modelArg
          = HandlerAction.validationFailure msg := by
  intro text voiceArg modelArg h
  unfold routeTextToSpeech
  split
  · exact ⟨_, rfl⟩
  · split
    · exact ⟨_, rfl⟩
    · split
      · exact ⟨_, rfl⟩
      · split
        · exact ⟨_, rfl⟩
        · next h1 h2 h3 h4 =>
            exfalso
            rcases h with h5 | h5 | h5 | h5
            · exact h1 h5
            · exact h2 h5
            · obtain ⟨v, hv, hv1, hv2⟩ := h5
              exact h3 (by rw [hv]; exact ⟨hv1, hv2⟩)
            · obtain ⟨m, hm, hm1, hm2⟩ := h5
              exact h4 (by rw [hm]; exact ⟨hm1, hm2⟩)

/-- Witness for C5 (amended): the empty text is rejected synchronously. -/
theorem validation_rejects_invalid_inputs_witness :
    ∃ msg, routeTextToSpeech ("") none none
        = HandlerAction.validationFailure msg :=
  validation_rejects_invalid_inputs ("") none none (Or.inl rfl)

/-- C6: a decoder close event with a non-zero exit code on a not-yet-settled
session settles it as a failure whose value carries that exit code and the
accumulated (possibly truncated) diagnostic buffer, and whose message spells
out the code and that buffer; and as long as the stderr chunks fit under the
cap, the accumulated buffer is exactly their concatenation (and stderr data
alone never settles the session). -/
theorem decoder_nonzero_exit_reports_diagnostics :
    (∀ (tr : List Event) (code : Option Int),
        code ≠ some 0 →
        (playTextToSpeech tr).settled = false →
        (step (playTextToSpeech tr) (Event.ffmpegClose code)).settled = true
        ∧ (step (playTextToSpeech tr) (Event.ffmpegClose code)).result
            = some (Except.error
                (PlayError.ffmpegExit code (playTextToSpeech tr).ffmpegError))
        ∧ (PlayError.ffmpegExit code (playTextToSpeech tr).ffmpegError).message
            = ("ffmpeg exited with code ") ++ exitCodeText code ++ (": ")
                ++ String.mk (playTextToSpeech tr).ffmpegError)
    ∧ (∀ chunks : List (List Char),
        (chunks.map List.length).sum ≤ MAX_ERROR_BUFFER_SIZE →
        (playTextToSpeech (chunks.map Event.stderrData)).settled = false
        ∧ (playTextToSpeech (chunks.map Event.stderrData)).ffmpegError
            = chunks.flatten) := by
  constructor
  · intro tr code hcode hset
    refine ⟨?_, ?_, rfl⟩
    · simp only [step]
      rw [if_pos ⟨hcode, hset⟩]
    · simp only [step]
      rw [if_pos ⟨hcode, hset⟩]
  · intro chunks hlen
    rw [playTextToSpeech, vb_run_stderrOnly chunks initialState]
    refine ⟨rfl, ?_⟩
    show chunks.foldl appendStderr initialState.ffmpegError = chunks.flatten
    rw [show initialState.ffmpegError = [] from rfl,
        vb_stderr_foldl_small chunks [] (by simpa using hlen)]
    simp

/-- Witness for C6: a decoder exiting with code 1 after a short stderr chunk
settles as a failure carrying exactly that chunk. -/
theorem decoder_nonzero_exit_reports_diagnostics_witness :
    (step (playTextToSpeech [Event.stderrData ([('b'), ('o'), ('o'), ('m')])])
        (Event.ffmpegClose (some 1))).result
      = some (Except.error
          (PlayError.ffmpegExit (some 1) ([('b'), ('o'), ('o'), ('m')]))) := by
  have h := (decoder_nonzero_exit_reports_diagnostics.1
      [Event.stderrData ([('b'), ('o'), ('o'), ('m')])] (some 1)
      (by decide) (by rfl)).2.1
  exact h.trans (by rfl)

/-- C7 counterexample: a first stderr chunk filling the buffer to exactly
the 10240-byte cap followed by one more byte exceeds the cap in total, yet
the accumulated diagnostic string is just the first chunk: the later data is
dropped silently and the result does not end in the truncation marker,
contradicting the claim that every over-cap sequence yields a string ending
in the marker. -/
theorem exact_cap_fill_drops_without_marker :
    MAX_ERROR_BUFFER_SIZE
        < (([capChunk, [('b')]].map List.length).sum)
    ∧ stderrFold [capChunk, [('b')]] = capChunk
    ∧ ¬ ∃ p, p ++ truncationMarker = stderrFold [capChunk, [('b')]] := by
  have hlen : capChunk.length = MAX_ERROR_BUFFER_SIZE := by
    simp [capChunk]
  have hfold : stderrFold [capChunk, [('b')]] = capChunk := by
    have h1 : appendStderr [] capChunk = capChunk := by
      unfold appendStderr
      rw [if_pos (by simp [hlen])]
      simp
    have h2 : appendStderr capChunk [('b')] = capChunk := by
      unfold appendStderr
      rw [if_neg (by rw [hlen]; simp), if_neg (by rw [hlen]; simp)]
    simp only [stderrFold, List.foldl_cons, List.foldl_nil, h1, h2]
  refine ⟨by simp [hlen], hfold, ?_⟩
  rintro ⟨p, hp⟩
  rw [hfold] at hp
  have hm : (']') ∈ truncationMarker := by decide
  have hmem : (']') ∈ capChunk := by
    rw [← hp]
    exact List.mem_append.2 (Or.inr hm)
  have hmem2 : (']') ∈ List.replicate MAX_ERROR_BUFFER_SIZE ('a') := hmem
  exact absurd (List.eq_of_mem_replicate hmem2) (by decide)

/-- C7 (amended): the accumulated diagnostic string never grows without
bound — it always stays within the 10240-byte cap plus the marker length;
when a chunk overflows a buffer still strictly below the cap, the result is
the buffer plus the fitting prefix of the chunk followed by the truncation
marker; but when the buffer already sits at exactly the cap, further chunks
are dropped silently and no marker is appended. -/
theorem stderr_truncation_behavior :
    (∀ (buf chunk : List Char),
        buf.length < MAX_ERROR_BUFFER_SIZE →
        MAX_ERROR_BUFFER_SIZE < buf.length + chunk.length →
        appendStderr buf chunk
          = buf ++ (chunk.take (MAX_ERROR_BUFFER_SIZE - buf.length)
              ++ truncationMarker))
    ∧ (∀ (buf chunk : List Char),
        buf.length = MAX_ERROR_BUFFER_SIZE → appendStderr buf chunk = buf)
    ∧ (∀ chunks : List (List Char),
        (stderrFold chunks).length
          ≤ MAX_ERROR_BUFFER_SIZE + truncationMarker.length) := by
  refine ⟨?_, ?_, ?_⟩
  · intro buf chunk h1 h2
    unfold appendStderr
    rw [if_neg (by omega), if_pos h1]
  · intro buf chunk h
    unfold appendStderr
    by_cases hc : chunk = []
    · rw [if_pos (by simp [hc, h])]
      simp [hc]
    · have hlen : 0 < chunk.length := List.length_pos.2 hc
      rw [if_neg (by omega), if_neg (by omega)]
  · intro chunks
    exact vb_stderr_foldl_le chunks [] (by simp)

/-- Witness for C7 (amended): a 10241-byte chunk arriving on an empty buffer
is truncated to the cap and the marker is appended. -/
theorem stderr_truncation_behavior_witness :
    appendStderr [] (List.replicate 10241 ('a'))
      = [] ++ ((List.replicate 10241 ('a')).take (MAX_ERROR_BUFFER_SIZE - ([] : List Char).length)
          ++ truncationMarker) :=
  stderr_truncation_behavior.1 [] (List.replicate 10241 ('a'))
    (by simp only [List.length_nil, MAX_ERROR_BUFFER_SIZE]; omega)
    (by simp only [List.length_nil, List.length_replicate, MAX_ERROR_BUFFER_SIZE]; omega)

/-- C8: when the remote synthesis call throws or its response carries no
stream body, the executor body raises the corresponding error into the catch
block, and on a not-yet-settled session that settles it as a rejection
carrying the provider failure message — the session neither succeeds nor
stays pending. -/
theorem provider_failure_rejects :
    ∀ (tr : List Event) (r : ProviderResult) (e : Event),
      providerEvent r = some e →
      (playTextToSpeech tr).settled = false →
      (step (playTextToSpeech tr) e).settled = true
      ∧ (step (playTextToSpeech tr) e).result
          = some (Except.error (PlayError.thrown (providerFailureMsg r))) := by
  intro tr r e he hset
  cases r with
  | failed m =>
      cases he
      constructor
      · simp only [step]; split <;> simp_all
      · simp only [step]; split
        · simp_all
        · rfl
  | response body =>
      cases body with
      | none =>
          cases he
          constructor
          · simp only [step]; split <;> simp_all
          · simp only [step]; split
            · simp_all
            · rfl
      | some chunks => cases he

/-- Witness for C8: a throwing provider call on a fresh session settles it
as a rejection with the thrown message. -/
theorem provider_failure_rejects_witness :
    (step (playTextToSpeech []) (Event.bodyError ("boom"))).result
      = some (Except.error (PlayError.thrown ("boom"))) :=
  (provider_failure_rejects [] (ProviderResult.failed ("boom"))
    (Event.bodyError ("boom")) rfl rfl).2

/-- C9: a text_to_speech tool call that omits the voice and model arguments
enters the pipeline with voice onyx and model tts-1 — although the signature
of playTextToSpeech itself defaults to alloy and tts-1 — and a successful
outcome is rendered with a message naming exactly the voice and model that
were used. -/
theorem handler_defaults_onyx_tts1 :
    ∀ text : String,
      text ≠ ("") →
      text.length ≤ MAX_TEXT_LENGTH →
      routeTextToSpeech text none none
          = HandlerAction.runPipeline text ("onyx") ("tts-1")
      ∧ handleTextToSpeech text none none (some (Except.ok ()))
          = { text := ("Successfully played text to speech with voice \"onyx\" using model \"tts-1\""),
              isError := false }
      ∧ playTextToSpeechDefaults = (("alloy"), ("tts-1")) := by
  intro text h1 h2
  have hroute : routeTextToSpeech text none none
      = HandlerAction.runPipeline text ("onyx") ("tts-1") := by
    unfold routeTextToSpeech
    rw [if_neg h1, if_neg (by omega), if_neg (by decide), if_neg (by decide)]
    rfl
  refine ⟨hroute, ?_, rfl⟩
  unfold handleTextToSpeech
  rw [hroute]
  rfl

/-- Witness for C9: the defaults applied to a concrete short text. -/
theorem handler_defaults_onyx_tts1_witness :
    routeTextToSpeech ("Hello world") none none
      = HandlerAction.runPipeline ("Hello world") ("onyx") ("tts-1") :=
  (handler_defaults_onyx_tts1 ("Hello world") (by decide) (by decide)).1

/-- C10: the accumulated diagnostic string never exceeds 10240 bytes plus
the length of the fixed truncation marker, a bound preserved by every single
stderr data event; and once the buffer has reached the cap, no later chunk
changes its length. -/
theorem stderr_cap_invariant :
    (∀ chunks : List (List Char),
        (stderrFold chunks).length
          ≤ MAX_ERROR_BUFFER_SIZE + truncationMarker.length)
    ∧ (∀ buf chunk : List Char,
        buf.length ≤ MAX_ERROR_BUFFER_SIZE + truncationMarker.length →
        (appendStderr buf chunk).length
          ≤ MAX_ERROR_BUFFER_SIZE + truncationMarker.length)
    ∧ (∀ buf chunk : List Char,
        MAX_ERROR_BUFFER_SIZE ≤ buf.length →
        (appendStderr buf chunk).length = buf.length) := by
  refine ⟨?_, vb_appendStderr_le, ?_⟩
  · intro chunks
    exact vb_stderr_foldl_le chunks [] (by simp)
  · intro buf chunk h
    unfold appendStderr
    split
    · next h1 => simp only [List.length_append]; omega
    · split
      · next h1 h2 => omega
      · rfl

/-- Witness for C10: a chunk arriving on a buffer already at the cap leaves
the length unchanged. -/
theorem stderr_cap_invariant_witness :
    (appendStderr capChunk [('b')]).length = capChunk.length :=
  stderr_cap_invariant.2.2 capChunk [('b')]
    (by simp only [capChunk, List.length_replicate]; omega)
